import Mathlib

/-!
A shallow embedding of `terminator/trunk/native/all/pty/PtyGenerator.h`.

The C++ code performs OS side effects (open/close of file descriptors,
fork, exec, environment mutation).  We embed each function as a pure Lean
function over an explicit "system environment" record that fixes the
outcome of every system call the function makes, and we make the side
effects observable in the return value (the list of file descriptors left
open, the list of descriptors closed, the diagnostic channel used, the
sequence of bootstrap steps completed).  Platform `#ifdef`s become `Bool`
parameters.  C++ exceptions become error constructors: each distinct
`throw` site in the source is a distinct constructor value.
-/

set_option maxRecDepth 8000
set_option maxHeartbeats 2000000

namespace PtyGenerator

/-- Outcome of a POSIX `open` call: a file descriptor, or a failure with an
`errno` value. -/
inductive OpenResult where
  | ok (fd : Nat)
  | err (errno : Nat)
deriving DecidableEq, Repr

/-- The `errno` value tested at line 90 of the source (`errno == ENOENT`). -/
def ENOENT : Nat := 2

/-- Line 81: the first-character table `"pqrstuvwxyzPQRST"` of the legacy
scan. -/
def scanChars1 : List Char := "pqrstuvwxyzPQRST".toList

/-- Line 82: the second-character table `"0123456789abcdef"` of the legacy
scan. -/
def scanChars2 : List Char := "0123456789abcdef".toList

/-- The candidate space of the two nested loops at lines 81-82, in loop
order: the outer loop walks `scanChars1`, the inner loop walks
`scanChars2`. -/
def ptyCandidates : List (Char × Char) :=
  scanChars1.flatMap (fun c1 => scanChars2.map (fun c2 => (c1, c2)))

/-- Lines 83-85: the master device path `"/dev/pty" + *ptr1 + *ptr2` tried
by the scan. -/
def masterPath (p : Char × Char) : String :=
  "/dev/pty" ++ String.singleton p.1 ++ String.singleton p.2

/-- Lines 100-102: the slave path `"/dev/tty" + *ptr1 + *ptr2` returned on
a successful open (same two trailing characters, `tty` directory-name in
place of `pty`). -/
def slavePathOf (p : Char × Char) : String :=
  "/dev/tty" ++ String.singleton p.1 ++ String.singleton p.2

/-- The distinct failure exits of `openMaster` / `ptym_open` /
`search_for_pty`; one constructor per `throw` site. -/
inductive AllocError where
  /-- Lines 92 and 108: `std::runtime_error("Out of pseudo-terminal devices")`. -/
  | outOfPtyDevices
  /-- Line 119: `unix_exception("ptsname(...) failed")`. -/
  | ptsnameFailed
  /-- Line 124: `unix_exception("grantpt(...) failed")`. -/
  | grantptFailed
  /-- Line 127: `unix_exception("unlockpt(...) failed")`. -/
  | unlockptFailed
deriving DecidableEq, Repr

/-- Result of the allocation functions: master fd plus slave path, or an
error (an exception in the source). -/
inductive AllocOutcome where
  | ok (masterFd : Nat) (slaveName : String)
  | error (e : AllocError)
deriving DecidableEq, Repr

/-- Lines 80-109, loop body and control flow of `search_for_pty`, recursing
over the remaining candidate list.  `sys path` is the outcome of
`open(path, O_RDWR)`.  A failed `open` yields no descriptor; `ENOENT`
aborts the whole scan (lines 90-92), any other error continues with the
next candidate (lines 93-95); a success returns the master fd and the
paired slave name (lines 99-105); an exhausted list throws (line 108). -/
def searchLoop (sys : String → OpenResult) : List (Char × Char) → AllocOutcome
  | [] => .error .outOfPtyDevices
  | p :: rest =>
    match sys (masterPath p) with
    | .ok fdm => .ok fdm (slavePathOf p)
    | .err e => if e = ENOENT then .error .outOfPtyDevices else searchLoop sys rest

/-- Lines 80-109: `search_for_pty`, the legacy BSD-style device scan over
the full 16 × 16 candidate space. -/
def search_for_pty (sys : String → OpenResult) : AllocOutcome :=
  searchLoop sys ptyCandidates

/-- Outcomes of the system calls made by `ptym_open` (lines 111-130). -/
structure AllocEnv where
  /-- Line 112: outcome of `open("/dev/ptmx", O_RDWR)`. -/
  ptmxOpen : OpenResult
  /-- Line 117: result of `ptsname(ptmx_fd)`; `none` models a NULL return. -/
  ptsnameResult : Option String
  /-- Line 123: return value of `grantpt(ptmx_fd)`. -/
  grantptRet : Int
  /-- Line 126: return value of `unlockpt(ptmx_fd)`. -/
  unlockptRet : Int
  /-- Line 88: outcome of `open` for each scan candidate path. -/
  scanOpen : String → OpenResult

/-- Lines 111-130: `ptym_open`.  The second component is the list of file
descriptors opened by the call that are still open when it returns or
throws.  Tracing the source: the scan's failed `open`s return no
descriptor, so a scan failure leaves nothing open; but when
`open("/dev/ptmx")` has succeeded, none of the three `throw` sites at
lines 119, 124 and 127 closes `ptmx_fd` first, so on those paths the
master descriptor stays open. -/
def ptym_open (env : AllocEnv) : AllocOutcome × List Nat :=
  match env.ptmxOpen with
  | .err _ =>
    -- line 114: fall back to the legacy scan
    match search_for_pty env.scanOpen with
    | .ok fd name => (.ok fd name, [fd])
    | .error e => (.error e, [])
  | .ok ptmx_fd =>
    match env.ptsnameResult with
    | none => (.error .ptsnameFailed, [ptmx_fd])
    | some name =>
      if env.grantptRet ≠ 0 then (.error .grantptFailed, [ptmx_fd])
      else if env.unlockptRet ≠ 0 then (.error .unlockptFailed, [ptmx_fd])
      else (.ok ptmx_fd name, [ptmx_fd])

/-! ### `openSlaveAndCloseMaster` (lines 47-61) -/

/-- Outcomes of the system calls made by `openSlaveAndCloseMaster`. -/
structure SlaveEnv where
  /-- Line 48: result of `getgrnam("tty")` (the `gr_gid` field when non-NULL). -/
  ttyGroup : Option Nat
  /-- Line 52: return value of `chown` (the source never examines it). -/
  chownRet : Int
  /-- Line 53: return value of `chmod` (the source never examines it). -/
  chmodRet : Int
  /-- Line 55: outcome of `open(ptyName, O_RDWR | O_NOCTTY)`: `some fd` on
  success, `none` on failure. -/
  slaveOpenFd : Option Nat

/-- Lines 47-61: `openSlaveAndCloseMaster`.  First component: the slave fd
(`Except.ok`) or the thrown `unix_exception` at line 57 (`Except.error`,
carrying the exception's message).  Second component: the descriptors
closed by the call.  The `chown` and `chmod` return values (lines 52-53)
flow in through `env` but no branch of the source inspects them; the
`getgrnam` result only chooses the `gid` argument of the ignored `chown`
(line 49). -/
def openSlaveAndCloseMaster (env : SlaveEnv) (ptyName : String) (masterFd : Nat) :
    Except String Nat × List Nat :=
  let _gid : Option Nat := env.ttyGroup   -- line 49, used only by the ignored chown
  let _ := env.chownRet                   -- line 52, return value discarded
  let _ := env.chmodRet                   -- line 53, return value discarded
  match env.slaveOpenFd with
  | none => (.error ("open(" ++ ptyName ++ ", O_RDWR | O_NOCTTY) failed"), [])
  | some fds => (.ok fds, [masterFd])     -- line 59: close(masterFd); line 60: return fds

/-! ### `runChild` (lines 150-205) and `forkAndExec` (lines 63-77) -/

/-- The bootstrap steps of the child branch, in the granularity of the
specification's state machine. -/
inductive Step where
  | cwdSet | sessionLeader | slaveBound | controllingTty
  | stdioRebound | extraFdsClosed | envFixed | signalsReset | imageReplaced
deriving DecidableEq, Repr

/-- Where a child-side failure diagnostic goes.  A plain `child_exception`
or `unix_exception` is only printed by the `catch` in `forkAndExec`
(line 71, `std::cerr`).  A `child_exception_via_pipe` (lines 139-148) first
writes the message to the given descriptor (the open slave fd) in its
constructor, and is then also printed to `std::cerr` by the same `catch`. -/
inductive ReportChannel where
  | stderrOnly
  | slaveFdThenStderr (fd : Nat)
deriving DecidableEq, Repr

/-- How `runChild` ends: `execed` means `execvp` succeeded and the process
image was replaced (control never comes back); `failed s ch msg` means the
step `s` threw, with diagnostic `msg` reported through channel `ch`.
There is no "returned normally" constructor because every path of
`runChild` either calls `execvp` successfully or throws: the line after
`execvp` (line 204) is itself a `throw`. -/
inductive ChildOutcome where
  | execed
  | failed (s : Step) (ch : ReportChannel) (msg : String)
deriving DecidableEq, Repr

/-- Outcomes of the system calls made by `runChild`, plus the platform
conditions (`#if defined(TIOCSCTTY)`) as booleans. -/
structure ChildEnv where
  /-- Line 151: `workingDirectory` argument (`none` models the NULL pointer). -/
  workingDirectory : Option String
  /-- Line 152: whether `chdir(workingDirectory)` succeeds. -/
  chdirOk : Bool
  /-- Line 156: whether `setsid()` succeeds. -/
  setsidOk : Bool
  /-- Line 160: system-call outcomes inside `openSlaveAndCloseMaster`. -/
  slave : SlaveEnv
  /-- The generator's `ptyName` field (set by `openMaster`). -/
  ptyName : String
  /-- The generator's `masterFd` field (set by `openMaster`). -/
  masterFd : Nat
  /-- Line 162: whether the platform defines `TIOCSCTTY`. -/
  hasTIOCSCTTY : Bool
  /-- Line 164: whether `ioctl(childFd, TIOCSCTTY, 0)` succeeds. -/
  ioctlScttyOk : Bool
  /-- Line 177: whether `dup2(childFd, STDIN_FILENO)` returns `STDIN_FILENO`. -/
  dup2StdinOk : Bool
  /-- Line 180: whether `dup2(childFd, STDOUT_FILENO)` returns `STDOUT_FILENO`. -/
  dup2StdoutOk : Bool
  /-- Line 183: whether `dup2(childFd, STDERR_FILENO)` returns `STDERR_FILENO`. -/
  dup2StderrOk : Bool
  /-- Line 203: whether `execvp(cmd[0], cmd)` succeeds (a successful
  `execvp` does not return). -/
  execOk : Bool
  /-- The `cmd[0]` argument, the executable name. -/
  argv0 : String

/-- Lines 150-205: `runChild`, returning its outcome together with the
list of bootstrap steps it completed, in execution order.  Direct
transcription of the straight-line source: each failure throws
immediately, so nothing after a failed step runs.  The Solaris-only
`I_PUSH` ioctls (lines 169-174) discard their return values and alter no
state visible here, and `closeUnusedFiles`, `fixEnvironment` and the three
`signal` calls (lines 189-201) have no failure path, so those steps always
complete once reached. -/
def runChild (env : ChildEnv) : ChildOutcome × List Step :=
  -- lines 151-155: optional chdir
  if env.workingDirectory.isSome ∧ env.chdirOk = false then
    (.failed .cwdSet .stderrOnly
      ("Error from child: chdir(\"" ++ env.workingDirectory.getD "" ++ "\")"), [])
  else
  let t0 : List Step := if env.workingDirectory.isSome then [.cwdSet] else []
  -- lines 156-158: setsid
  if env.setsidOk = false then
    (.failed .sessionLeader .stderrOnly "Error from child: setsid()", t0)
  else
  -- line 160: childFd = openSlaveAndCloseMaster()
  match (openSlaveAndCloseMaster env.slave env.ptyName env.masterFd).1 with
  | .error msg => (.failed .slaveBound .stderrOnly msg, t0 ++ [.sessionLeader])
  | .ok childFd =>
    let t1 := t0 ++ [.sessionLeader, .slaveBound]
    -- lines 162-167: platform-conditional TIOCSCTTY ioctl
    if env.hasTIOCSCTTY ∧ env.ioctlScttyOk = false then
      (.failed .controllingTty (.slaveFdThenStderr childFd)
        ("Error from child: ioctl(" ++ toString childFd ++ ", TIOCSCTTY, 0)"), t1)
    else
    let t2 := t1 ++ if env.hasTIOCSCTTY then [.controllingTty] else []
    -- lines 177-185: dup2 onto fds 0, 1, 2, each skipped when childFd already is that fd
    if childFd ≠ 0 ∧ env.dup2StdinOk = false then
      (.failed .stdioRebound (.slaveFdThenStderr childFd)
        ("Error from child: dup2(" ++ toString childFd ++ ", STDIN_FILENO)"), t2)
    else if childFd ≠ 1 ∧ env.dup2StdoutOk = false then
      (.failed .stdioRebound (.slaveFdThenStderr childFd)
        ("Error from child: dup2(" ++ toString childFd ++ ", STDOUT_FILENO)"), t2)
    else if childFd ≠ 2 ∧ env.dup2StderrOk = false then
      (.failed .stdioRebound (.slaveFdThenStderr childFd)
        ("Error from child: dup2(" ++ toString childFd ++ ", STDERR_FILENO)"), t2)
    else
    -- lines 186-201: close extra copy of childFd, closeUnusedFiles, fixEnvironment, signals
    let t3 := t2 ++ [.stdioRebound, .extraFdsClosed, .envFixed, .signalsReset]
    -- lines 203-204: execvp; reaching the next line at all means it failed
    if env.execOk = false then
      (.failed .imageReplaced .stderrOnly
        ("Can't execute '" ++ env.argv0 ++ "'"), t3)
    else (.execed, t3 ++ [.imageReplaced])

/-- The canonical full step sequence of the child for a given environment:
`cwdSet` only when a working directory was requested (line 151),
`controllingTty` only when the platform defines `TIOCSCTTY` (line 162). -/
def stepOrder (env : ChildEnv) : List Step :=
  (if env.workingDirectory.isSome then [.cwdSet] else []) ++
  [.sessionLeader, .slaveBound] ++
  (if env.hasTIOCSCTTY then [.controllingTty] else []) ++
  [.stdioRebound, .extraFdsClosed, .envFixed, .signalsReset, .imageReplaced]

/-- What the fork's child branch looks like from outside: either the
process image was replaced, or the child exited with a status after a
diagnostic reached `std::cerr`. -/
inductive ChildResult where
  | replaced
  | exited (status : Nat) (diagnostic : String)
deriving DecidableEq, Repr

/-- Lines 63-77, child branch of `forkAndExec`: `runChild` is called inside
a `try`; any exception is printed (line 71) and the child does `exit(1)`
(line 73).  On a successful `execvp` the image is replaced and none of
this runs.  Either way control never returns to the caller's code in the
child. -/
def forkAndExecChild (env : ChildEnv) : ChildResult :=
  match (runChild env).1 with
  | .execed => .replaced
  | .failed _ _ msg => .exited 1 msg

/-! ### `fixEnvironment` (lines 207-231) -/

/-- The process environment as a partial map from variable names to
values. -/
def Env : Type := String → Option String

/-- Model of `putenv("K=V")`: bind `K` to `V`. -/
def envPut (e : Env) (k v : String) : Env :=
  fun n => if n = k then some v else e n

/-- Model of `unsetenv("K")`: remove any binding of `K`. -/
def envUnset (e : Env) (k : String) : Env :=
  fun n => if n = k then none else e n

/-- Lines 207-231: `fixEnvironment`.  `apple` is the `#ifdef __APPLE__`
condition; `ppid` is the `getppid()` result used to build the Apple
launcher variable names.  Sets `TERM` (line 209), unsets `WINDOWID`
(line 213); then, on Apple only, unsets the three `getppid()`-keyed
launcher variables and `TERM_PROGRAM` / `TERM_PROGRAM_VERSION`
(lines 218-226), and on every other platform unsets `COLORTERM` instead
(line 229). -/
def fixEnvironment (apple : Bool) (ppid : Nat) (e : Env) : Env :=
  let e := envPut e "TERM" "terminator"
  let e := envUnset e "WINDOWID"
  if apple then
    let e := envUnset e ("APP_ICON_" ++ toString ppid)
    let e := envUnset e ("APP_NAME_" ++ toString ppid)
    let e := envUnset e ("JAVA_MAIN_CLASS_" ++ toString ppid)
    let e := envUnset e "TERM_PROGRAM"
    envUnset e "TERM_PROGRAM_VERSION"
  else
    envUnset e "COLORTERM"

/-! ### `closeUnusedFiles` (lines 240-270)

The fd-directory entries are directory-entry name strings; the source
turns each into a number with `int fd = strtoul(name, NULL, 10)` and
collects those with `fd > STDERR_FILENO`.  We model `strtoul` (base 10)
faithfully: skip leading whitespace, an optional sign, then the longest
digit prefix, clamping at `ULONG_MAX` on overflow and negating modulo
`2^64` for a leading minus; the conversion of the `unsigned long` result
to `int` wraps modulo `2^32` into two's complement. -/

/-- Largest `unsigned long` value (LP64). -/
def ULONG_MAX : Nat := 2 ^ 64 - 1

/-- C `isspace` for the default locale. -/
def isCSpace (c : Char) : Bool :=
  c = ' ' ∨ c = '\t' ∨ c = '\n' ∨ c = '\r' ∨ c = '\x0b' ∨ c = '\x0c'

/-- Drop the leading whitespace `strtoul` skips. -/
def dropSpaces : List Char → List Char
  | [] => []
  | c :: cs => if isCSpace c then dropSpaces cs else c :: cs

/-- Accumulate the longest leading run of decimal digits, clamping at
`ULONG_MAX` as `strtoul` does on overflow; parsing stops at the first
non-digit and the rest of the string is ignored. -/
def digitAccum : Nat → List Char → Nat
  | acc, [] => acc
  | acc, c :: cs =>
    if c.isDigit then digitAccum (min (acc * 10 + (c.toNat - 48)) ULONG_MAX) cs
    else acc

/-- Model of `strtoul(s, NULL, 10)`. -/
def strtoul10 (s : String) : Nat :=
  match dropSpaces s.data with
  | [] => 0
  | c :: cs =>
    if c = '-' then (2 ^ 64 - digitAccum 0 cs) % 2 ^ 64
    else if c = '+' then digitAccum 0 cs
    else digitAccum 0 (c :: cs)

/-- Conversion of the `unsigned long` result to `int` (line 259 stores it
in an `int`): wrap modulo `2^32`, two's complement. -/
def ulongToInt (n : Nat) : Int :=
  let m : Nat := n % 2 ^ 32
  if m < 2 ^ 31 then (m : Int) else (m : Int) - 2 ^ 32

/-- Line 259: `int fd = strtoul(it->getName().c_str(), NULL, 10)`. -/
def entryFd (name : String) : Int :=
  ulongToInt (strtoul10 name)

/-- Lines 240-270: `closeUnusedFiles`, given the directory-entry names of
the fd directory (`/proc/self/fd` or `/dev/fd`).  Pass 1 (lines 256-263)
collects the parsed numbers greater than `STDERR_FILENO`; pass 2
(lines 265-269) closes exactly the collected list, ignoring `close`
failures.  The returned list is the list of descriptors closed, in order. -/
def closeUnusedFiles (entries : List String) : List Int :=
  -- pass 1: collect the fds to close
  let fds : List Int := entries.filterMap (fun name =>
    let fd := entryFd name
    if fd > 2 then some fd else none)
  -- pass 2: close the fds (close's result is ignored)
  fds

/-- The decimal name a fd-directory entry has for descriptor `n`:
most-significant digit first, no sign, no padding.  (Helper for stating
what `closeUnusedFiles` does on a real fd listing.) -/
def decDigitsRev (n : Nat) : List Char :=
  if h : n < 10 then [Char.ofNat (48 + n)]
  else Char.ofNat (48 + n % 10) :: decDigitsRev (n / 10)
decreasing_by
  exact Nat.div_lt_self (by omega) (by omega)

/-- Decimal rendering of a descriptor number, as the kernel names fd
entries. -/
def decimalName (n : Nat) : String :=
  ⟨(decDigitsRev n).reverse⟩

/-! ### Concrete environments used to check particular executions -/

/-- An allocation environment where `/dev/ptmx` opens as descriptor 3 but
`ptsname` returns NULL. -/
def envPtsnameFails : AllocEnv :=
  { ptmxOpen := .ok 3, ptsnameResult := none, grantptRet := 0, unlockptRet := 0,
    scanOpen := fun _ => .err 0 }

/-- A child environment where the open of the slave device fails (every
other call would succeed). -/
def envSlaveOpenFails : ChildEnv :=
  { workingDirectory := none, chdirOk := true, setsidOk := true,
    slave := { ttyGroup := some 5, chownRet := 0, chmodRet := 0, slaveOpenFd := none },
    ptyName := "/dev/ttyq3", masterFd := 3, hasTIOCSCTTY := true, ioctlScttyOk := true,
    dup2StdinOk := true, dup2StdoutOk := true, dup2StderrOk := true,
    execOk := true, argv0 := "bash" }

/-- A child environment in which everything up to `execvp` succeeds and
`execvp` fails. -/
def envExecFails : ChildEnv :=
  { workingDirectory := some "/home", chdirOk := true, setsidOk := true,
    slave := { ttyGroup := some 5, chownRet := 0, chmodRet := 0, slaveOpenFd := some 4 },
    ptyName := "/dev/ttyq3", masterFd := 3, hasTIOCSCTTY := true, ioctlScttyOk := true,
    dup2StdinOk := true, dup2StdoutOk := true, dup2StderrOk := true,
    execOk := false, argv0 := "no-such-program" }

/-- A parent environment (for `fixEnvironment`) in which `COLORTERM` and
`TERM_PROGRAM` are both set. -/
def envWithColorterm : Env :=
  fun n => if n = "COLORTERM" then some "truecolor"
           else if n = "TERM_PROGRAM" then some "Apple_Terminal" else none

/-- A child environment in which every call succeeds, so that `execvp`
replaces the process image. -/
def envAllOk : ChildEnv :=
  { workingDirectory := some "/home", chdirOk := true, setsidOk := true,
    slave := { ttyGroup := some 5, chownRet := 0, chmodRet := 0, slaveOpenFd := some 4 },
    ptyName := "/dev/ttyq3", masterFd := 3, hasTIOCSCTTY := true, ioctlScttyOk := true,
    dup2StdinOk := true, dup2StdoutOk := true, dup2StderrOk := true,
    execOk := true, argv0 := "bash" }

/-! # Theorems -/

/-- Reusable step lemma: a candidate whose open fails with an error other
than `ENOENT` is skipped and the scan continues with the rest of the
list. -/
theorem searchLoop_skip (sys : String → OpenResult) (p : Char × Char)
    (rest : List (Char × Char)) (e : Nat) (he : sys (masterPath p) = .err e)
    (hne : e ≠ ENOENT) :
    searchLoop sys (p :: rest) = searchLoop sys rest := by
  simp [searchLoop, he, hne]

/-- Reusable lemma: a whole block of candidates that all fail with
non-`ENOENT` errors is skipped. -/
theorem searchLoop_skip_all (sys : String → OpenResult) (pre rest : List (Char × Char))
    (h : ∀ q ∈ pre, ∃ e, sys (masterPath q) = .err e ∧ e ≠ ENOENT) :
    searchLoop sys (pre ++ rest) = searchLoop sys rest := by
  induction pre with
  | nil => rfl
  | cons p pre ih =>
    obtain ⟨e, he, hne⟩ := h p (by simp)
    rw [List.cons_append, searchLoop_skip sys p (pre ++ rest) e he hne]
    exact ih (fun q hq => h q (by simp [hq]))

/-- C1: in the legacy device-scan fallback, a candidate whose open fails
with `ENOENT` stops the scan for the entire remaining candidate space and
the allocation fails with the "out of pseudo-terminal devices" error
(first conjunct: the remaining space `post` is arbitrary and the result
does not depend on it; third conjunct: the same at the `allocate` /
`ptym_open` level); a candidate whose open fails with any other error is
skipped in favour of the next candidate (second conjunct). -/
theorem scan_enoent_is_hard_stop (sys : String → OpenResult)
    (pre post : List (Char × Char)) (p : Char × Char) :
    ((∀ q ∈ pre, ∃ e, sys (masterPath q) = .err e ∧ e ≠ ENOENT) →
      sys (masterPath p) = .err ENOENT →
      searchLoop sys (pre ++ p :: post) = .error .outOfPtyDevices)
    ∧ (∀ e, sys (masterPath p) = .err e → e ≠ ENOENT →
        searchLoop sys (p :: post) = searchLoop sys post)
    ∧ (∀ env : AllocEnv, env.scanOpen = sys → ptyCandidates = pre ++ p :: post →
        (∀ q ∈ pre, ∃ e, sys (masterPath q) = .err e ∧ e ≠ ENOENT) →
        sys (masterPath p) = .err ENOENT →
        (∀ e0, env.ptmxOpen = .err e0 →
          (ptym_open env).1 = .error .outOfPtyDevices)) := by
  have hstop : (∀ q ∈ pre, ∃ e, sys (masterPath q) = .err e ∧ e ≠ ENOENT) →
      sys (masterPath p) = .err ENOENT →
      searchLoop sys (pre ++ p :: post) = .error .outOfPtyDevices := by
    intro hpre hp
    rw [searchLoop_skip_all sys pre (p :: post) hpre]
    simp [searchLoop, hp]
  refine ⟨hstop, ?_, ?_⟩
  · intro e he hne
    exact searchLoop_skip sys p post e he hne
  · intro env hsys hcand hpre hp e0 hptmx
    have hscan : search_for_pty env.scanOpen = .error .outOfPtyDevices := by
      rw [hsys, search_for_pty, hcand]
      exact hstop hpre hp
    simp [ptym_open, hptmx, hscan]

/-- Witness for `scan_enoent_is_hard_stop`: with every open failing with
`ENOENT`, the scan aborts on the very first candidate and allocation
fails with the "out of pseudo-terminal devices" error. -/
theorem scan_enoent_is_hard_stop_witness :
    searchLoop (fun _ => .err ENOENT) ([] ++ ('p', '0') :: ptyCandidates.tail) =
      .error .outOfPtyDevices ∧
    (ptym_open { ptmxOpen := .err 19, ptsnameResult := none, grantptRet := 0,
                 unlockptRet := 0, scanOpen := fun _ => .err ENOENT }).1 =
      .error .outOfPtyDevices := by
  constructor
  · exact (scan_enoent_is_hard_stop (fun _ => .err ENOENT) [] ptyCandidates.tail
      ('p', '0')).1 (by simp) rfl
  · exact (scan_enoent_is_hard_stop (fun _ => .err ENOENT) [] ptyCandidates.tail
      ('p', '0')).2.2 _ rfl rfl (by simp) rfl 19 rfl

/-- C6: the legacy scan draws candidates from the fixed 16 × 16
two-character name space in a fixed order (first conjunct: the two
character tables have 16 entries each and the candidate list has 256
entries); for the first candidate whose master open succeeds — all
earlier candidates having failed with skippable errors — the scan returns
that master descriptor paired with the slave path
`"/dev/tty" + <same two trailing characters>` (second conjunct); if all
candidates fail with skippable errors the scan fails with the "out of
pseudo-terminal devices" error (third conjunct). -/
theorem scan_space_first_fit_and_exhaustion :
    (scanChars1.length = 16 ∧ scanChars2.length = 16 ∧ ptyCandidates.length = 256)
    ∧ (∀ (sys : String → OpenResult) (pre post : List (Char × Char))
        (p : Char × Char) (fd : Nat),
        ptyCandidates = pre ++ p :: post →
        (∀ q ∈ pre, ∃ e, sys (masterPath q) = .err e ∧ e ≠ ENOENT) →
        sys (masterPath p) = .ok fd →
        search_for_pty sys =
          .ok fd ("/dev/tty" ++ String.singleton p.1 ++ String.singleton p.2))
    ∧ (∀ sys : String → OpenResult,
        (∀ q ∈ ptyCandidates, ∃ e, sys (masterPath q) = .err e ∧ e ≠ ENOENT) →
        search_for_pty sys = .error .outOfPtyDevices) := by
  refine ⟨⟨rfl, rfl, rfl⟩, ?_, ?_⟩
  · intro sys pre post p fd hcand hpre hp
    rw [search_for_pty, hcand, searchLoop_skip_all sys pre (p :: post) hpre]
    simp [searchLoop, hp, slavePathOf]
  · intro sys hall
    have h := searchLoop_skip_all sys ptyCandidates [] hall
    rw [List.append_nil] at h
    rw [search_for_pty, h]
    rfl

/-- Witness for `scan_space_first_fit_and_exhaustion`: when every
candidate is "busy" (`EIO`) except `/dev/ptyq3`, the scan returns that
master descriptor and the paired slave name `/dev/ttyq3`; when every
candidate is busy the scan fails with the exhaustion error. -/
theorem scan_space_first_fit_and_exhaustion_witness :
    search_for_pty
        (fun s => if s = "/dev/ptyq3" then .ok 7 else .err 5) =
      .ok 7 ("/dev/tty" ++ String.singleton 'q' ++ String.singleton '3') ∧
    search_for_pty (fun _ => .err 5) = .error .outOfPtyDevices := by
  constructor
  · have hne : ∀ q ∈ ptyCandidates.take 19, masterPath q ≠ "/dev/ptyq3" := by decide
    exact scan_space_first_fit_and_exhaustion.2.1
      (fun s => if s = "/dev/ptyq3" then .ok 7 else .err 5)
      (ptyCandidates.take 19) (ptyCandidates.drop 20) ('q', '3') 7
      (by decide) (fun q hq => ⟨5, by simp only [if_neg (hne q hq)], by decide⟩) rfl
  · exact scan_space_first_fit_and_exhaustion.2.2 (fun _ => .err 5)
      (fun q _ => ⟨5, rfl, by decide⟩)

/-- C5: `allocate()` uses the legacy scan only when the open of the
multiplexer device fails (first conjunct); when the multiplexer open
succeeds the scan outcomes are irrelevant to the result (second
conjunct), and a failing slave-name lookup, grant call or unlock call
produces the corresponding allocation error rather than a fallback to the
scan (remaining conjuncts). -/
theorem multiplexer_failures_do_not_fall_back (env : AllocEnv) :
    (∀ e0, env.ptmxOpen = .err e0 →
      (ptym_open env).1 = search_for_pty env.scanOpen)
    ∧ (∀ fd, env.ptmxOpen = .ok fd → ∀ sys2,
        (ptym_open { env with scanOpen := sys2 }).1 = (ptym_open env).1)
    ∧ (∀ fd, env.ptmxOpen = .ok fd → env.ptsnameResult = none →
        (ptym_open env).1 = .error .ptsnameFailed)
    ∧ (∀ fd name, env.ptmxOpen = .ok fd → env.ptsnameResult = some name →
        env.grantptRet ≠ 0 → (ptym_open env).1 = .error .grantptFailed)
    ∧ (∀ fd name, env.ptmxOpen = .ok fd → env.ptsnameResult = some name →
        env.grantptRet = 0 → env.unlockptRet ≠ 0 →
        (ptym_open env).1 = .error .unlockptFailed) := by
  refine ⟨?_, ?_, ?_, ?_, ?_⟩
  · intro e0 h
    simp only [ptym_open, h]
    cases search_for_pty env.scanOpen <;> rfl
  · intro fd h sys2
    simp only [ptym_open, h]
  · intro fd h hname
    simp [ptym_open, h, hname]
  · intro fd name h hname hg
    simp [ptym_open, h, hname, hg]
  · intro fd name h hname hg hu
    simp [ptym_open, h, hname, hg, hu]

/-- Witness for `multiplexer_failures_do_not_fall_back`: with the
multiplexer open as descriptor 3 and `ptsname` returning NULL, allocation
fails with the name-lookup error even though every scan candidate would
open successfully. -/
theorem multiplexer_failures_do_not_fall_back_witness :
    (ptym_open { envPtsnameFails with scanOpen := fun _ => .ok 9 }).1 =
      .error .ptsnameFailed := by
  exact (multiplexer_failures_do_not_fall_back
    { envPtsnameFails with scanOpen := fun _ => .ok 9 }).2.2.1 3 rfl rfl

/-- C2 counterexample: an execution of `allocate()` (`openMaster` /
`ptym_open`) that fails — the multiplexer opens as descriptor 3 and
`ptsname` returns NULL — leaves that descriptor open: the claim that every
failing execution leaves zero descriptors open is false.  (Tracing the
source: the `throw` at line 119 is reached without any `close(ptmx_fd)`,
and likewise the throws at lines 124 and 127.) -/
theorem alloc_failure_leaks_fd_counterexample :
    (ptym_open envPtsnameFails).1 = .error .ptsnameFailed ∧
    (ptym_open envPtsnameFails).2 = [3] := ⟨rfl, rfl⟩

/-- C2 amended: `allocate()` opens exactly one descriptor (the master) on
success (first conjunct) and leaves no descriptor open on any failure of
the legacy scan, including every failed scan attempt (second conjunct);
but on the primary-path failures — slave-name lookup, grant call, unlock
call — the already-open multiplexer descriptor is left open (third
conjunct). -/
theorem alloc_open_descriptor_accounting (env : AllocEnv) :
    (∀ fd name, (ptym_open env).1 = .ok fd name → (ptym_open env).2 = [fd])
    ∧ (∀ e0 e, env.ptmxOpen = .err e0 → (ptym_open env).1 = .error e →
        (ptym_open env).2 = [])
    ∧ (∀ m e, env.ptmxOpen = .ok m → (ptym_open env).1 = .error e →
        (ptym_open env).2 = [m]) := by
  refine ⟨?_, ?_, ?_⟩
  · intro fd name h
    unfold ptym_open at h ⊢
    cases hp : env.ptmxOpen with
    | err e0 =>
      simp only [hp] at h ⊢
      cases hs : search_for_pty env.scanOpen <;> simp [hs] at h ⊢
      simp_all
    | ok m =>
      simp only [hp] at h ⊢
      cases hn : env.ptsnameResult with
      | none => simp [hn] at h
      | some name' =>
        simp only [hn] at h ⊢
        by_cases hg : env.grantptRet = 0 <;> by_cases hu : env.unlockptRet = 0 <;>
          simp [hg, hu] at h ⊢
        simp_all
  · intro e0 e hp h
    unfold ptym_open at h ⊢
    simp only [hp] at h ⊢
    cases hs : search_for_pty env.scanOpen <;> simp [hs] at h ⊢
  · intro m e hp h
    unfold ptym_open at h ⊢
    simp only [hp] at h ⊢
    cases hn : env.ptsnameResult with
    | none => simp
    | some name' =>
      simp only [hn] at h ⊢
      by_cases hg : env.grantptRet = 0 <;> by_cases hu : env.unlockptRet = 0 <;>
        simp [hg, hu] at h ⊢

/-- Witness for `alloc_open_descriptor_accounting`: a successful
multiplexer allocation leaves exactly the master descriptor open; a scan
exhaustion leaves nothing open; a failed unlock call leaves the
multiplexer descriptor open. -/
theorem alloc_open_descriptor_accounting_witness :
    (ptym_open { ptmxOpen := .ok 3, ptsnameResult := some "/dev/pts/2",
                 grantptRet := 0, unlockptRet := 0,
                 scanOpen := fun _ => .err 0 }).2 = [3] ∧
    (ptym_open { ptmxOpen := .err 2, ptsnameResult := none, grantptRet := 0,
                 unlockptRet := 0, scanOpen := fun _ => .err ENOENT }).2 = [] ∧
    (ptym_open { ptmxOpen := .ok 3, ptsnameResult := some "/dev/pts/2",
                 grantptRet := 0, unlockptRet := 1,
                 scanOpen := fun _ => .err 0 }).2 = [3] := by
  refine ⟨?_, ?_, ?_⟩
  · exact (alloc_open_descriptor_accounting _).1 3 "/dev/pts/2" rfl
  · exact (alloc_open_descriptor_accounting _).2.1 2 .outOfPtyDevices rfl rfl
  · exact (alloc_open_descriptor_accounting _).2.2 3 .unlockptFailed rfl rfl

/-- C10: `openSlaveAndCloseMaster` fails exactly when the open of the
slave device fails (first conjunct); on success it returns the open slave
descriptor and closes precisely the stored master descriptor (second
conjunct); and the outcomes of the `getgrnam`, `chown` and `chmod` calls
are silently ignored — they never affect the result (third conjunct). -/
theorem openSlave_fails_iff_open_fails (env : SlaveEnv) (ptyName : String)
    (masterFd : Nat) :
    ((∃ msg, (openSlaveAndCloseMaster env ptyName masterFd).1 = .error msg) ↔
      env.slaveOpenFd = none)
    ∧ (∀ fd, env.slaveOpenFd = some fd →
        openSlaveAndCloseMaster env ptyName masterFd = (.ok fd, [masterFd]))
    ∧ (∀ g c1 c2, openSlaveAndCloseMaster ⟨g, c1, c2, env.slaveOpenFd⟩ ptyName masterFd =
        openSlaveAndCloseMaster env ptyName masterFd) := by
  refine ⟨?_, ?_, ?_⟩
  · cases h : env.slaveOpenFd <;> simp [openSlaveAndCloseMaster, h]
  · intro fd h
    simp [openSlaveAndCloseMaster, h]
  · intro g c1 c2
    cases h : env.slaveOpenFd <;> simp [openSlaveAndCloseMaster, h]

/-- Witness for `openSlave_fails_iff_open_fails`: with the slave opening
as descriptor 5 and a stored master descriptor 3, the call returns slave
descriptor 5 and closes exactly descriptor 3, whatever `getgrnam`, `chown`
and `chmod` did. -/
theorem openSlave_fails_iff_open_fails_witness :
    openSlaveAndCloseMaster ⟨none, -1, -1, some 5⟩ "/dev/ttyq3" 3 =
      (.ok 5, [3]) := by
  exact (openSlave_fails_iff_open_fails ⟨none, -1, -1, some 5⟩ "/dev/ttyq3" 3).2.1 5 rfl

/-- C4: in every child execution the bootstrap steps run in the fixed
order given by `stepOrder` — working-directory change (skipped when none
requested), session leader, slave bound / master closed,
controlling-terminal (platform-conditional), stdio rebinding, extra-fd
cleanup, environment fixup, signal reset, image replacement: the
completed-step trace is always a prefix of that order (first conjunct),
the success path completes all of it (second conjunct), a failing step is
the next step of the order after the completed trace, so no later step
ever runs (third conjunct); and control never returns to the caller: on
success the image is replaced (fourth conjunct) and on any failure the
child exits instead of returning (fifth conjunct). -/
theorem child_steps_fixed_order (env : ChildEnv) :
    (∃ k, (runChild env).2 = (stepOrder env).take k)
    ∧ ((runChild env).1 = .execed → (runChild env).2 = stepOrder env)
    ∧ (∀ s ch m, (runChild env).1 = .failed s ch m →
        (runChild env).2 ++ [s] = (stepOrder env).take ((runChild env).2.length + 1))
    ∧ ((runChild env).1 = .execed → forkAndExecChild env = .replaced)
    ∧ (∀ s ch m, (runChild env).1 = .failed s ch m →
        forkAndExecChild env = .exited 1 m) := by
  have key : ∀ o t, runChild env = (o, t) →
      (∃ k, t = (stepOrder env).take k)
      ∧ (o = .execed → t = stepOrder env)
      ∧ (∀ s ch m, o = .failed s ch m →
          t ++ [s] = (stepOrder env).take (t.length + 1)) := by
    intro o t hrc
    simp only [runChild] at hrc
    by_cases hwd : env.workingDirectory.isSome <;>
      by_cases htio : env.hasTIOCSCTTY = true <;>
      simp only [hwd, htio, if_true, if_false] at hrc <;>
      repeat' split at hrc
    all_goals (injection hrc with h1 h2; subst h1; subst h2)
    all_goals refine ⟨?_, by simp_all [stepOrder], ?_⟩
    all_goals simp_all [stepOrder]
    all_goals first
      | exact ⟨0, by decide⟩ | exact ⟨1, by decide⟩ | exact ⟨2, by decide⟩
      | exact ⟨3, by decide⟩ | exact ⟨4, by decide⟩ | exact ⟨5, by decide⟩
      | exact ⟨6, by decide⟩ | exact ⟨7, by decide⟩ | exact ⟨8, by decide⟩
      | exact ⟨9, by decide⟩
  obtain ⟨hpre, hsucc, hfail⟩ := key (runChild env).1 (runChild env).2 rfl
  refine ⟨hpre, hsucc, hfail, ?_, ?_⟩
  · intro h
    simp [forkAndExecChild, h]
  · intro s ch m h
    simp [forkAndExecChild, h]

/-- Witness for `child_steps_fixed_order`: with every call succeeding the
child completes the full step order, and with `execvp` failing the child
exits with status 1 after the exec diagnostic. -/
theorem child_steps_fixed_order_witness :
    (runChild envAllOk).2 = stepOrder envAllOk ∧
    forkAndExecChild envExecFails = .exited 1 "Can't execute 'no-such-program'" := by
  constructor
  · exact (child_steps_fixed_order envAllOk).2.1 rfl
  · exact (child_steps_fixed_order envExecFails).2.2.2.2 .imageReplaced .stderrOnly
      "Can't execute 'no-such-program'" rfl

/-- C7: every bootstrap failure in the child makes the child exit with
status 1 (first conjunct: any failed `runChild` outcome turns into
`exit(1)` in `forkAndExec`'s child branch), and a failed process-image
replacement produces the diagnostic `Can't execute '<argv[0]>'`, which
mentions the executable name (second conjunct). -/
theorem child_bootstrap_failure_exit_status (env : ChildEnv) :
    (∀ s ch msg, (runChild env).1 = .failed s ch msg →
      forkAndExecChild env = .exited 1 msg)
    ∧ (∀ ch msg, (runChild env).1 = .failed .imageReplaced ch msg →
        msg = "Can't execute '" ++ env.argv0 ++ "'" ∧
        ∃ before after, msg = before ++ env.argv0 ++ after) := by
  constructor
  · intro s ch msg h
    simp [forkAndExecChild, h]
  · intro ch msg h
    have hmsg : msg = "Can't execute '" ++ env.argv0 ++ "'" := by
      simp only [runChild] at h
      repeat' split at h
      all_goals simp_all
    exact ⟨hmsg, "Can't execute '", "'", by rw [hmsg]⟩

/-- Witness for `child_bootstrap_failure_exit_status`: a spawn of the
nonexistent executable `no-such-program` exits with status 1 and the
diagnostic mentions the executable name. -/
theorem child_bootstrap_failure_exit_status_witness :
    forkAndExecChild envExecFails = .exited 1 "Can't execute 'no-such-program'" ∧
    ∃ before after,
      "Can't execute 'no-such-program'" = before ++ "no-such-program" ++ after := by
  constructor
  · exact (child_bootstrap_failure_exit_status envExecFails).1 .imageReplaced
      .stderrOnly "Can't execute 'no-such-program'" rfl
  · exact ((child_bootstrap_failure_exit_status envExecFails).2 .stderrOnly
      "Can't execute 'no-such-program'" rfl).2

/-- C3 counterexample: in a child execution where the open of the slave
device fails (and every other call would succeed), the failure is
reported through `std::cerr` only — the exception thrown at line 57 is a
plain `unix_exception`, caught at line 70 and printed to standard error at
line 71; it is not a `child_exception_via_pipe`, and no slave descriptor
is even open to write to.  This refutes the claim that the open-slave
failure is reported through the side channel rather than standard
error. -/
theorem slave_open_failure_channel_counterexample :
    (runChild envSlaveOpenFails).1 =
      .failed .slaveBound .stderrOnly
        "open(/dev/ttyq3, O_RDWR | O_NOCTTY) failed" := by rfl

/-- C3 amended: when the child's open of the slave device fails during
SLAVE_BOUND, the failure is fatal — the child exits with status 1 — but
its diagnostic is reported through standard error (the still-inherited
stderr of the exception handler), not through the side channel, because
no slave descriptor is open yet (first conjunct); the side channel
(writing directly to the already-open slave descriptor) is used exactly
by the failures that occur after the slave is open: the
controlling-terminal ioctl and the stdio rebinding (second conjunct). -/
theorem slave_open_failure_reported_on_stderr (env : ChildEnv) :
    (env.slave.slaveOpenFd = none →
      (env.workingDirectory.isSome → env.chdirOk = true) → env.setsidOk = true →
      (runChild env).1 = .failed .slaveBound .stderrOnly
          ("open(" ++ env.ptyName ++ ", O_RDWR | O_NOCTTY) failed") ∧
        forkAndExecChild env =
          .exited 1 ("open(" ++ env.ptyName ++ ", O_RDWR | O_NOCTTY) failed"))
    ∧ (∀ s ch m fd, (runChild env).1 = .failed s ch m →
        ch = .slaveFdThenStderr fd →
        env.slave.slaveOpenFd = some fd ∧
          (s = .controllingTty ∨ s = .stdioRebound)) := by
  constructor
  · intro hnone hwdc hset
    have hc : ¬(env.workingDirectory.isSome ∧ env.chdirOk = false) := by
      rintro ⟨h1, h2⟩
      rw [hwdc h1] at h2
      exact Bool.noConfusion h2
    have h1 : (runChild env).1 = .failed .slaveBound .stderrOnly
        ("open(" ++ env.ptyName ++ ", O_RDWR | O_NOCTTY) failed") := by
      simp [runChild, hc, hset, openSlaveAndCloseMaster, hnone]
    exact ⟨h1, by simp [forkAndExecChild, h1]⟩
  · intro s ch m fd h hch
    subst hch
    cases hopen : env.slave.slaveOpenFd with
    | none =>
      simp only [runChild, openSlaveAndCloseMaster, hopen] at h
      repeat' split at h
      all_goals simp_all
    | some v =>
      simp only [runChild, openSlaveAndCloseMaster, hopen] at h
      repeat' split at h
      all_goals simp_all

/-- Witness for `slave_open_failure_reported_on_stderr`: the concrete
environment where the slave open fails yields the stderr-reported fatal
failure, and the concrete ioctl failure writes to the open slave
descriptor. -/
theorem slave_open_failure_reported_on_stderr_witness :
    (runChild envSlaveOpenFails).1 = .failed .slaveBound .stderrOnly
        ("open(" ++ "/dev/ttyq3" ++ ", O_RDWR | O_NOCTTY) failed") ∧
    ((envAllOk.slave.slaveOpenFd = some 4) ∧
      (Step.controllingTty = Step.controllingTty ∨
        Step.controllingTty = Step.stdioRebound)) := by
  constructor
  · exact ((slave_open_failure_reported_on_stderr envSlaveOpenFails).1 rfl
      (fun h => rfl) rfl).1
  · exact (slave_open_failure_reported_on_stderr
      { envAllOk with ioctlScttyOk := false }).2 .controllingTty
      (.slaveFdThenStderr 4) "Error from child: ioctl(4, TIOCSCTTY, 0)" 4 rfl rfl

/-- String helper: an appended name whose first character differs from a
target name's first character never equals it. -/
theorem append_ne_of_head_ne (s t u : String) (c d : Char)
    (hs : s.data.head? = some c) (ht : t.data.head? = some d) (hcd : c ≠ d) :
    s ++ u ≠ t := by
  intro h
  have hd : s.data ++ u.data = t.data := by
    rw [← String.data_append, h]
  cases hsl : s.data with
  | nil => rw [hsl] at hs; exact Option.noConfusion hs
  | cons a as =>
    cases htl : t.data with
    | nil => rw [htl] at ht; exact Option.noConfusion ht
    | cons b bs =>
      rw [hsl, htl] at hd
      rw [hsl] at hs
      rw [htl] at ht
      simp only [List.head?_cons, Option.some.injEq] at hs ht
      simp only [List.cons_append, List.cons.injEq] at hd
      exact hcd (hs ▸ ht ▸ hd.1)

/-- String helper: appending the same suffix to two different names gives
two different names. -/
theorem append_ne_of_ne (s t u : String) (h : s ≠ t) : s ++ u ≠ t ++ u := by
  intro he
  apply h
  have hd : s.data ++ u.data = t.data ++ u.data := by
    rw [← String.data_append, ← String.data_append, he]
  exact String.ext (List.append_cancel_right hd)

/-- C9 counterexample: the environment fixup is platform-conditional, so
the claim that the color-terminal and terminal-program variables are all
unset in every execution is false: on the Apple side (`#ifdef __APPLE__`,
lines 215-226) an inherited `COLORTERM` survives the fixup, and on every
other platform (line 229) an inherited `TERM_PROGRAM` survives. -/
theorem env_fixup_counterexample :
    fixEnvironment true 7 envWithColorterm "COLORTERM" = some "truecolor" ∧
    fixEnvironment false 7 envWithColorterm "TERM_PROGRAM" =
      some "Apple_Terminal" := ⟨rfl, rfl⟩

/-- C9 amended: after `fixEnvironment`, `TERM` equals the emulator's own
terminfo identifier `terminator` and `WINDOWID` is unset, on every
platform; the host-application terminal-identification variables are
unset platform-conditionally: on Apple the three dock-icon/IDE variables
keyed by the parent process id and `TERM_PROGRAM` /
`TERM_PROGRAM_VERSION` are unset (but `COLORTERM` is not touched), and on
every other platform `COLORTERM` is unset (but the Apple-side variables
are not touched). -/
theorem env_fixup_platform_conditional (apple : Bool) (ppid : Nat) (e : Env) :
    fixEnvironment apple ppid e "TERM" = some "terminator"
    ∧ fixEnvironment apple ppid e "WINDOWID" = none
    ∧ (apple = true →
        fixEnvironment apple ppid e ("APP_ICON_" ++ toString ppid) = none
        ∧ fixEnvironment apple ppid e ("APP_NAME_" ++ toString ppid) = none
        ∧ fixEnvironment apple ppid e ("JAVA_MAIN_CLASS_" ++ toString ppid) = none
        ∧ fixEnvironment apple ppid e "TERM_PROGRAM" = none
        ∧ fixEnvironment apple ppid e "TERM_PROGRAM_VERSION" = none)
    ∧ (apple = false → fixEnvironment apple ppid e "COLORTERM" = none) := by
  have hjava : ∀ t : String, t.data.head? = some 'T' →
      t ≠ "JAVA_MAIN_CLASS_" ++ toString ppid := fun t ht =>
    (append_ne_of_head_ne "JAVA_MAIN_CLASS_" t (toString ppid) 'J' _ rfl ht
      (by decide)).symm
  have hicon : ∀ t : String, t.data.head? = some 'T' →
      t ≠ "APP_ICON_" ++ toString ppid := fun t ht =>
    (append_ne_of_head_ne "APP_ICON_" t (toString ppid) 'A' _ rfl ht
      (by decide)).symm
  have hname : ∀ t : String, t.data.head? = some 'T' →
      t ≠ "APP_NAME_" ++ toString ppid := fun t ht =>
    (append_ne_of_head_ne "APP_NAME_" t (toString ppid) 'A' _ rfl ht
      (by decide)).symm
  have hwjava : ("WINDOWID" : String) ≠ "JAVA_MAIN_CLASS_" ++ toString ppid :=
    (append_ne_of_head_ne "JAVA_MAIN_CLASS_" "WINDOWID" (toString ppid) 'J' 'W'
      rfl rfl (by decide)).symm
  have hwicon : ("WINDOWID" : String) ≠ "APP_ICON_" ++ toString ppid :=
    (append_ne_of_head_ne "APP_ICON_" "WINDOWID" (toString ppid) 'A' 'W'
      rfl rfl (by decide)).symm
  have hwname : ("WINDOWID" : String) ≠ "APP_NAME_" ++ toString ppid :=
    (append_ne_of_head_ne "APP_NAME_" "WINDOWID" (toString ppid) 'A' 'W'
      rfl rfl (by decide)).symm
  have hicontpv : "APP_ICON_" ++ toString ppid ≠ ("TERM_PROGRAM_VERSION" : String) :=
    append_ne_of_head_ne "APP_ICON_" _ (toString ppid) 'A' 'T' rfl rfl (by decide)
  have hicontp : "APP_ICON_" ++ toString ppid ≠ ("TERM_PROGRAM" : String) :=
    append_ne_of_head_ne "APP_ICON_" _ (toString ppid) 'A' 'T' rfl rfl (by decide)
  have hiconjava : "APP_ICON_" ++ toString ppid ≠ "JAVA_MAIN_CLASS_" ++ toString ppid :=
    append_ne_of_ne "APP_ICON_" "JAVA_MAIN_CLASS_" (toString ppid) (by decide)
  have hiconname : "APP_ICON_" ++ toString ppid ≠ "APP_NAME_" ++ toString ppid :=
    append_ne_of_ne "APP_ICON_" "APP_NAME_" (toString ppid) (by decide)
  have hnametpv : "APP_NAME_" ++ toString ppid ≠ ("TERM_PROGRAM_VERSION" : String) :=
    append_ne_of_head_ne "APP_NAME_" _ (toString ppid) 'A' 'T' rfl rfl (by decide)
  have hnametp : "APP_NAME_" ++ toString ppid ≠ ("TERM_PROGRAM" : String) :=
    append_ne_of_head_ne "APP_NAME_" _ (toString ppid) 'A' 'T' rfl rfl (by decide)
  have hnamejava : "APP_NAME_" ++ toString ppid ≠ "JAVA_MAIN_CLASS_" ++ toString ppid :=
    append_ne_of_ne "APP_NAME_" "JAVA_MAIN_CLASS_" (toString ppid) (by decide)
  have hjavatpv : "JAVA_MAIN_CLASS_" ++ toString ppid ≠ ("TERM_PROGRAM_VERSION" : String) :=
    append_ne_of_head_ne "JAVA_MAIN_CLASS_" _ (toString ppid) 'J' 'T' rfl rfl (by decide)
  have hjavatp : "JAVA_MAIN_CLASS_" ++ toString ppid ≠ ("TERM_PROGRAM" : String) :=
    append_ne_of_head_ne "JAVA_MAIN_CLASS_" _ (toString ppid) 'J' 'T' rfl rfl (by decide)
  cases apple with
  | true =>
    refine ⟨?_, ?_, fun _ => ⟨?_, ?_, ?_, ?_, ?_⟩, fun hf => by simp at hf⟩
    · simp [fixEnvironment, envPut, envUnset,
        hjava "TERM" rfl, hicon "TERM" rfl, hname "TERM" rfl]
    · simp [fixEnvironment, envPut, envUnset, hwjava, hwicon, hwname]
    · simp [fixEnvironment, envPut, envUnset,
        hicontpv, hicontp, hiconjava, hiconname]
    · simp [fixEnvironment, envPut, envUnset, hnametpv, hnametp, hnamejava]
    · simp [fixEnvironment, envPut, envUnset, hjavatpv, hjavatp]
    · simp [fixEnvironment, envPut, envUnset, hicontp.symm, hnametp.symm,
        hjavatp.symm]
    · simp [fixEnvironment, envPut, envUnset]
  | false =>
    refine ⟨?_, ?_, fun ht => by simp at ht, fun _ => ?_⟩
    · simp [fixEnvironment, envPut, envUnset]
    · simp [fixEnvironment, envPut, envUnset]
    · simp [fixEnvironment, envPut, envUnset]

/-- Witness for `env_fixup_platform_conditional`: concrete checks on an
Apple-side execution with parent process id 7 and an inherited
environment holding `COLORTERM` and `TERM_PROGRAM`, and on a
non-Apple-side execution of the same. -/
theorem env_fixup_platform_conditional_witness :
    fixEnvironment true 7 envWithColorterm "TERM" = some "terminator" ∧
    fixEnvironment true 7 envWithColorterm "TERM_PROGRAM" = none ∧
    fixEnvironment false 7 envWithColorterm "COLORTERM" = none := by
  refine ⟨(env_fixup_platform_conditional true 7 envWithColorterm).1, ?_, ?_⟩
  · exact ((env_fixup_platform_conditional true 7 envWithColorterm).2.2.1 rfl).2.2.2.1
  · exact (env_fixup_platform_conditional false 7 envWithColorterm).2.2.2 rfl

/-! ### Helper lemmas about decimal digits, for the fd-cleanup claim -/

/-- A digit character built from a value below 10 behaves as expected. -/
theorem digitChar_facts (d : Nat) (hd : d < 10) :
    (Char.ofNat (48 + d)).isDigit = true ∧ (Char.ofNat (48 + d)).toNat = 48 + d := by
  interval_cases d <;> exact ⟨by decide, by decide⟩

/-- Every character of a decimal rendering is a digit. -/
theorem decDigitsRev_all_digits (n : Nat) : ∀ c ∈ decDigitsRev n, c.isDigit = true := by
  induction n using Nat.strong_induction_on with
  | _ n ih =>
    rw [decDigitsRev]
    by_cases h : n < 10
    · simp only [h, dite_true, List.mem_singleton]
      rintro c rfl
      exact (digitChar_facts n h).1
    · simp only [h, dite_false, List.mem_cons]
      rintro c (rfl | hc)
      · exact (digitChar_facts (n % 10) (Nat.mod_lt n (by omega))).1
      · exact ih (n / 10) (Nat.div_lt_self (by omega) (by omega)) c hc

/-- A digit character is not whitespace and not a sign. -/
theorem digit_not_space_nor_sign (c : Char) (h : c.isDigit = true) :
    isCSpace c = false ∧ c ≠ '-' ∧ c ≠ '+' := by
  refine ⟨?_, ?_, ?_⟩
  · cases hs : isCSpace c
    · rfl
    · exfalso
      have := of_decide_eq_true hs
      rcases this with h1 | h1 | h1 | h1 | h1 | h1 <;> subst h1 <;>
        exact absurd h (by decide)
  · rintro rfl; exact absurd h (by decide)
  · rintro rfl; exact absurd h (by decide)

/-- Accumulating over a concatenation of an all-digit block. -/
theorem digitAccum_append (l1 l2 : List Char) (h : ∀ c ∈ l1, c.isDigit = true) :
    ∀ acc, digitAccum acc (l1 ++ l2) = digitAccum (digitAccum acc l1) l2 := by
  induction l1 with
  | nil => intro acc; rfl
  | cons c cs ih =>
    intro acc
    have hc : c.isDigit = true := h c (by simp)
    rw [List.cons_append, digitAccum, digitAccum, if_pos hc, if_pos hc]
    exact ih (fun d hd => h d (by simp [hd])) _

/-- Value of accumulating the reversed decimal rendering: the digits come
most-significant first and never hit the `ULONG_MAX` clamp while the
running value stays below `2^64`. -/
theorem digitAccum_decDigitsRev (n : Nat) :
    ∀ acc, acc * 10 ^ (decDigitsRev n).length + n < 2 ^ 64 →
      digitAccum acc (decDigitsRev n).reverse =
        acc * 10 ^ (decDigitsRev n).length + n := by
  induction n using Nat.strong_induction_on with
  | _ n ih =>
    intro acc hbound
    rw [decDigitsRev] at hbound ⊢
    by_cases h : n < 10
    · simp only [h, dite_true] at hbound ⊢
      simp only [List.length_singleton, pow_one] at hbound
      have hdig := (digitChar_facts n h).1
      have htn := (digitChar_facts n h).2
      simp only [List.reverse_singleton, digitAccum, if_pos hdig, htn]
      have hle : acc * 10 + n ≤ ULONG_MAX := by
        unfold ULONG_MAX; omega
      simp only [List.length_singleton, pow_one]
      omega
    · simp only [h, dite_false] at hbound ⊢
      have hdigs : ∀ d ∈ (decDigitsRev (n / 10)).reverse, d.isDigit = true := by
        intro d hd
        exact decDigitsRev_all_digits (n / 10) d (List.mem_reverse.mp hd)
      rw [List.reverse_cons, digitAccum_append _ _ hdigs acc]
      have hsub : n / 10 < n := Nat.div_lt_self (by omega) (by omega)
      simp only [List.length_cons] at hbound ⊢
      have hpow : (10 : Nat) ^ ((decDigitsRev (n / 10)).length + 1) =
          10 * 10 ^ (decDigitsRev (n / 10)).length := by
        rw [pow_succ]; ring
      have hacc : acc * 10 ^ ((decDigitsRev (n / 10)).length + 1) =
          10 * (acc * 10 ^ (decDigitsRev (n / 10)).length) := by
        rw [hpow]; ring
      have hnm : 10 * (n / 10) + n % 10 = n := Nat.div_add_mod n 10
      have hb2 : acc * 10 ^ (decDigitsRev (n / 10)).length + n / 10 < 2 ^ 64 := by
        omega
      rw [ih (n / 10) hsub acc hb2]
      have hmod : n % 10 < 10 := Nat.mod_lt n (by omega)
      have hdig := (digitChar_facts (n % 10) hmod).1
      have htn := (digitChar_facts (n % 10) hmod).2
      simp only [digitAccum, if_pos hdig, htn]
      have hv : (acc * 10 ^ (decDigitsRev (n / 10)).length + n / 10) * 10 +
          (48 + n % 10 - 48) =
          acc * 10 ^ ((decDigitsRev (n / 10)).length + 1) + n := by
        omega
      rw [hv, Nat.min_eq_left]
      unfold ULONG_MAX
      omega

/-- The `strtoul`-then-`int` conversion recovers the descriptor number from
its decimal entry name, for every number an `int` can hold. -/
theorem entryFd_decimalName (n : Nat) (hn : n < 2 ^ 31) :
    entryFd (decimalName n) = (n : Int) := by
  have hne : decDigitsRev n ≠ [] := by
    rw [decDigitsRev]
    by_cases h : n < 10 <;> simp [h]
  obtain ⟨c, cs, hrev⟩ : ∃ c cs, (decDigitsRev n).reverse = c :: cs := by
    cases hr : (decDigitsRev n).reverse with
    | nil =>
      exfalso
      exact hne (by simpa using congrArg List.reverse hr)
    | cons c cs => exact ⟨c, cs, rfl⟩
  have hcdig : c.isDigit = true := by
    have hc : c ∈ (decDigitsRev n).reverse := by rw [hrev]; simp
    exact decDigitsRev_all_digits n c (List.mem_reverse.mp hc)
  obtain ⟨hsp, hminus, hplus⟩ := digit_not_space_nor_sign c hcdig
  have hval : digitAccum 0 ((decDigitsRev n).reverse) = n := by
    have hb : 0 * 10 ^ (decDigitsRev n).length + n < 2 ^ 64 := by omega
    have := digitAccum_decDigitsRev n 0 hb
    simpa using this
  have hdrop : dropSpaces ((decDigitsRev n).reverse) = c :: cs := by
    rw [hrev]
    simp [dropSpaces, hsp]
  have hstr : strtoul10 (decimalName n) = n := by
    have hdata : (decimalName n).data = (decDigitsRev n).reverse := rfl
    unfold strtoul10
    rw [hdata, hdrop]
    simp only [if_neg hminus, if_neg hplus]
    rw [← hrev, hval]
  unfold entryFd ulongToInt
  rw [hstr]
  have h32 : n % 2 ^ 32 = n := Nat.mod_eq_of_lt (by omega)
  simp only [h32, if_pos hn]

/-- C8: the descriptor-cleanup pass closes only descriptors numbered
above 2 (first conjunct), so 0, 1 and 2 are never closed (second
conjunct); an enumeration entry that does not parse as a descriptor above
2 — such as `"."` or `".."`, which `strtoul` turns into 0 — is skipped
without effect (third conjunct); and on an enumeration consisting of
exactly one decimal entry per open descriptor, the descriptors closed are
exactly the open descriptors above 2 (fourth conjunct; the first pass
collects them, the second pass closes the collected list as-is). -/
theorem close_unused_files_exactly_above_2 (entries : List String) :
    (∀ fd ∈ closeUnusedFiles entries, 2 < fd)
    ∧ ((0 : Int) ∉ closeUnusedFiles entries ∧ (1 : Int) ∉ closeUnusedFiles entries ∧
        (2 : Int) ∉ closeUnusedFiles entries)
    ∧ (∀ s rest, entryFd s ≤ 2 →
        closeUnusedFiles (s :: rest) = closeUnusedFiles rest)
    ∧ (∀ openFds : List Nat, (∀ n ∈ openFds, n < 2 ^ 31) →
        closeUnusedFiles (openFds.map decimalName) =
          (openFds.filter (fun n => 2 < n)).map (fun n => (n : Int))) := by
  have habove : ∀ fd ∈ closeUnusedFiles entries, 2 < fd := by
    intro fd hfd
    simp only [closeUnusedFiles, List.mem_filterMap] at hfd
    obtain ⟨a, _, ha⟩ := hfd
    by_cases hgt : entryFd a > 2
    · rw [if_pos hgt] at ha
      cases ha
      exact hgt
    · rw [if_neg hgt] at ha
      exact Option.noConfusion ha
  refine ⟨habove, ⟨?_, ?_, ?_⟩, ?_, ?_⟩
  · intro h; exact absurd (habove 0 h) (by decide)
  · intro h; exact absurd (habove 1 h) (by decide)
  · intro h; exact absurd (habove 2 h) (by decide)
  · intro s rest hle
    simp only [closeUnusedFiles, List.filterMap_cons]
    rw [if_neg (by omega)]
  · intro openFds hsmall
    induction openFds with
    | nil => rfl
    | cons m rest ih =>
      have hm : m < 2 ^ 31 := hsmall m (by simp)
      have hrt := entryFd_decimalName m hm
      have ih2 := ih (fun q hq => hsmall q (by simp [hq]))
      simp only [List.map_cons, closeUnusedFiles, List.filterMap_cons,
        List.filter_cons] at ih2 ⊢
      by_cases h2 : 2 < m
      · rw [if_pos (by rw [hrt]; omega), hrt, ih2]
        simp [h2]
      · rw [if_neg (by rw [hrt]; omega), ih2]
        simp [h2]

/-- Witness for `close_unused_files_exactly_above_2`: on the enumeration
naming open descriptors 0, 1, 2, 3 and 17, exactly 3 and 17 are closed;
an entry `"."` (which does not parse as a descriptor above 2) is skipped
without effect. -/
theorem close_unused_files_exactly_above_2_witness :
    closeUnusedFiles (List.map decimalName [0, 1, 2, 3, 17]) = [(3 : Int), 17] ∧
    closeUnusedFiles ("." :: [decimalName 5]) = closeUnusedFiles [decimalName 5] := by
  constructor
  · rw [(close_unused_files_exactly_above_2 []).2.2.2 [0, 1, 2, 3, 17] (by decide)]
    rfl
  · exact (close_unused_files_exactly_above_2 []).2.2.1 "." [decimalName 5] (by decide)

end PtyGenerator
